import Mathlib

/-!
Verification of the reorg-aware block stream (`tests/src/fixture.rs`,
`stream_events`) and of the block-cache repair tool
(`node/src/manager/commands/fix_block.rs`) of the graph-node repository,
as a shallow embedding in Lean.
-/

set_option maxRecDepth 4000

namespace GraphNode

/-! ## Block stream data model (`tests/src/fixture.rs`)

`BlockPtr { hash: H256, number: i32 }`; the hash is modelled as a `Nat`
(the fixture builds hashes with `H256::from_low_u64_be`), the height as
an `Int` (`i32`; no arithmetic in this module can overflow it). -/

structure BlockPtr where
  hash : Nat
  number : Int
deriving DecidableEq, Repr

/-- `test_ptr(n)` of the fixture: hash `H256::from_low_u64_be(n)`, number `n`. -/
def test_ptr (n : Int) : BlockPtr :=
  { hash := n.toNat, number := n }

/-- A `BlockWithTriggers` as `stream_events` consumes it: the code only
reads `b.ptr()` and `b.parent_ptr()` (trigger data is carried through
untouched), so the embedding keeps exactly those two fields. -/
structure BlockW where
  ptr : BlockPtr
  parent : Option BlockPtr
deriving DecidableEq, Repr

/-- The fixture always yields `FirehoseCursor::None`. -/
inductive FirehoseCursor where
  | noCursor
deriving DecidableEq, Repr

inductive BlockStreamEvent where
  | processBlock (b : BlockW) (cursor : FirehoseCursor)
  | revert (p : BlockPtr) (cursor : FirehoseCursor)
deriving DecidableEq, Repr

/-- Result of one iteration of the `while let` loop of `stream_events`:
either the iterator is exhausted, or the loop body panics
(`Option::unwrap` on `None`), or one event is emitted together with the
updated iterator/`current_ptr`/`current_parent_ptr` state. -/
inductive StepRes where
  | finished
  | panicked (msg : String)
  | emit (e : BlockStreamEvent) (rest : List BlockW)
      (cur : Option BlockPtr) (curPar : Option BlockPtr)
deriving DecidableEq, Repr

/-- One iteration of the loop body of `stream_events`
(`tests/src/fixture.rs:306-323`). `blocks` is the full chain vector
(reverts look the revert target up in it), `rest` the not-yet-consumed
suffix, `cur`/`curPar` the mutable `current_ptr`/`current_parent_ptr`. -/
def advanceStep (blocks rest : List BlockW) (cur curPar : Option BlockPtr) : StepRes :=
  match rest with
  | [] => StepRes.finished
  | block :: rest' =>
    if block.parent = cur then
      -- linear extension: consume the block, yield ProcessBlock
      StepRes.emit (BlockStreamEvent.processBlock block FirehoseCursor.noCursor)
        rest' (some block.ptr) block.parent
    else
      match curPar with
      | none => StepRes.panicked "called Option::unwrap on a None value"
      | some revertTo =>
        match blocks.find? (fun b => b.ptr = revertTo) with
        | none => StepRes.panicked "called Option::unwrap on a None value"
        | some b =>
          -- fork: yield Revert, do not consume the candidate block
          StepRes.emit (BlockStreamEvent.revert revertTo FirehoseCursor.noCursor)
            (block :: rest') (some revertTo) b.parent

/-- Outcome of running the stream to completion under a fuel bound
(the Rust generator can loop forever on adversarial block vectors, so
the embedding makes the bound explicit). -/
inductive Outcome where
  | done
  | panic (msg : String)
  | fuelExhausted
deriving DecidableEq, Repr

/-- The `while let` loop of `stream_events`, collecting the emitted
events in order. -/
def streamLoop (blocks : List BlockW) :
    Nat → List BlockW → Option BlockPtr → Option BlockPtr →
    List BlockStreamEvent × Outcome
  | 0, rest, _, _ => ([], if rest.isEmpty then Outcome.done else Outcome.fuelExhausted)
  | fuel+1, rest, cur, curPar =>
    match advanceStep blocks rest cur curPar with
    | StepRes.finished => ([], Outcome.done)
    | StepRes.panicked m => ([], Outcome.panic m)
    | StepRes.emit e rest' cur' curPar' =>
      let (evs, out) := streamLoop blocks fuel rest' cur' curPar'
      (e :: evs, out)

/-- `stream_events(blocks, current_idx)` (`tests/src/fixture.rs:292-325`):
initialises `current_ptr`/`current_parent_ptr` from `blocks[idx]` (an
out-of-bounds index panics, as `&blocks[idx]` does) and skips
`idx + 1` blocks before iterating. -/
def stream_events (fuel : Nat) (blocks : List BlockW) (currentIdx : Option Nat) :
    List BlockStreamEvent × Outcome :=
  match currentIdx with
  | none => streamLoop blocks fuel blocks none none
  | some idx =>
    match blocks.get? idx with
    | none => ([], Outcome.panic "index out of bounds")
    | some b => streamLoop blocks fuel (blocks.drop (idx + 1)) (some b.ptr) b.parent

/-- The candidate list is a parent-linked chain growing out of `cur`:
each block's parent pointer equals the previous block's pointer, the
first one's equals `cur`. -/
def isLinearChain : Option BlockPtr → List BlockW → Bool
  | _, [] => true
  | cur, b :: bs => decide (b.parent = cur) && isLinearChain (some b.ptr) bs

/-! ## Block-cache repair tool (`node/src/manager/commands/fix_block.rs`)

An `H256` is 32 bytes; the embedding carries it as a byte list (the
length discipline is enforced where the code enforces it, in
`H256::from_slice`). Fallible Rust functions returning
`anyhow::Result` become `Except String`; `with_context` prepends the
context to the inner message the way anyhow's display chain does. -/

abbrev H256 := List Nat

/-- Scalar fragment of `serde_json::Value`. The repair tool inspects a
value only through `==` and the `Value::Null` constructor, and the
structural diff is an external crate kept as an explicit function
parameter, so the embedding does not need nested arrays/objects. -/
inductive Value where
  | null
  | bool (b : Bool)
  | num (n : Int)
  | str (s : String)
deriving DecidableEq, Repr

/-- The provider block as `fetch_single_provider_block` reads it: its
self-reported hash (`provider_block.hash: Option<H256>`) and its
`serde_json` serialisation. -/
structure ProviderBlock where
  hash : Option H256
  json : Value
deriving DecidableEq, Repr

/-- The chain-store facets the repair tool touches: `block_hashes_by_block_number`,
`blocks(&[hash])` and `chain_head_block`, plus the chain name used in
error messages. Deletions are reported in the repair functions' return
value rather than by mutating the store. -/
structure ChainStoreM where
  hashesByNumber : Int → List H256
  blocksOf : H256 → List Value
  chainHead : Option Int
  chain : String

/-- `helpers::get_single_item` (`fix_block.rs:215-225`): first two pulls
of the iterator decide between exactly-one, none and multiple. -/
def get_single_item {α : Type} (name : String) : List α → Except String α
  | [a] => Except.ok a
  | [] => Except.error ("Expected a single " ++ name ++ " but found none.")
  | _ => Except.error ("Expected a single " ++ name ++ " but found multiple occurrences.")

/-- `steps::resolve_block_hash_from_block_number` (`fix_block.rs:95-102`). -/
def resolve_block_hash_from_block_number (number : Int) (chain_store : ChainStoreM) :
    Except String H256 :=
  (get_single_item "block hash" (chain_store.hashesByNumber number)).mapError
    (fun e => "Failed to locate block number " ++ toString number ++ " in store: " ++ e)

/-- `steps::fetch_single_cached_block` (`fix_block.rs:107-117`). -/
def fetch_single_cached_block (block_hash : H256) (chain_store : ChainStoreM) :
    Except String Value :=
  let blocks := chain_store.blocksOf block_hash
  if blocks.isEmpty then
    Except.error "Could not find a block with the given hash in cache"
  else
    (get_single_item "block" blocks).mapError
      (fun e => "Failed to locate block in store.: " ++ e)

/-- `steps::fetch_single_provider_block` (`fix_block.rs:122-139`). The
JRPC adapter is a parameter: it may fail, or find no block, or return a
provider block whose self-reported hash is checked against the request
(`ensure!(provider_block.hash == Some(*block_hash), ...)`). -/
def fetch_single_provider_block (adapter : H256 → Except String (Option ProviderBlock))
    (block_hash : H256) : Except String Value :=
  match adapter block_hash with
  | Except.error e => Except.error ("failed to fetch block: " ++ e)
  | Except.ok none => Except.error "JRPC provider found no block"
  | Except.ok (some provider_block) =>
    if provider_block.hash = some block_hash then
      Except.ok provider_block.json
    else
      Except.error "Provider responded with a different block hash"

/-- `steps::diff_block_pair` (`fix_block.rs:144-159`). `diffFn` stands
for `JsonDiff::diff(a, b, false).diff` and `render` for
`json_structural_diff::colorize`, both from the external crate. -/
def diff_block_pair (diffFn : Value → Value → Option Value) (render : Value → String)
    (a b : Value) : Option String :=
  if a = b then
    none
  else
    match diffFn a b with
    | none => none
    | some Value.null => none
    | some d => some (render d)

/-- `steps::find_chain_head` (`fix_block.rs:180-183`). -/
def find_chain_head (chain_store : ChainStoreM) : Except String Int :=
  match chain_store.chainHead with
  | some n => Except.ok n
  | none => Except.error ("Could not find the chain head for " ++ chain_store.chain)

/-- `run` (`fix_block.rs:69-84`): fetch the cached and the provider
copy, diff them, and delete the cached block exactly when the diff is
present. The returned list holds the hashes passed to `delete_blocks`. -/
def run (block_hash : H256) (chain_store : ChainStoreM)
    (adapter : H256 → Except String (Option ProviderBlock))
    (diffFn : Value → Value → Option Value) (render : Value → String) :
    Except String (List H256) := do
  let cached_block ← fetch_single_cached_block block_hash chain_store
  let provider_block ← fetch_single_provider_block adapter block_hash
  let diff := diff_block_pair diffFn render cached_block provider_block
  match diff with
  | some _ => Except.ok [block_hash]
  | none => Except.ok []

/-- `by_number` (`fix_block.rs:24-32`). -/
def by_number (number : Int) (chain_store : ChainStoreM)
    (adapter : H256 → Except String (Option ProviderBlock))
    (diffFn : Value → Value → Option Value) (render : Value → String) :
    Except String (List H256) := do
  let block_hash ← resolve_block_hash_from_block_number number chain_store
  run block_hash chain_store adapter diffFn render

/-! ### `ranges` module (`fix_block.rs:229-301`) -/

/-- `ranges::Range`: optional `i32` bounds plus the inclusivity flag. -/
structure Range where
  lower_bound : Option Int
  upper_bound : Option Int
  inclusive : Bool
deriving DecidableEq, Repr

/-- Rust's `str::split("..")`: cut at every non-overlapping, leftmost
occurrence of the two-dot separator. -/
def splitOnExc : List Char → List (List Char)
  | '.' :: '.' :: rest => [] :: splitOnExc rest
  | c :: rest =>
    match splitOnExc rest with
    | [] => [[c]]
    | p :: ps => (c :: p) :: ps
  | [] => [[]]

/-- Rust's `str::split("..=")`. -/
def splitOnInc : List Char → List (List Char)
  | '.' :: '.' :: '=' :: rest => [] :: splitOnInc rest
  | c :: rest =>
    match splitOnInc rest with
    | [] => [[c]]
    | p :: ps => (c :: p) :: ps
  | [] => [[]]

def digitVal (c : Char) : Option Nat :=
  if '0' ≤ c ∧ c ≤ '9' then some (c.toNat - '0'.toNat) else none

def parseDigitsAux : Nat → List Char → Option Nat
  | acc, [] => some acc
  | acc, c :: rest =>
    match digitVal c with
    | some d => parseDigitsAux (10 * acc + d) rest
    | none => none

/-- Rust's `str::parse::<i32>()`: optional sign, at least one decimal
digit, result within the `i32` range. -/
def parseI32 (cs : List Char) : Option Int :=
  let signed : Int × List Char :=
    match cs with
    | '+' :: rest => (1, rest)
    | '-' :: rest => (-1, rest)
    | cs => (1, cs)
  match signed.2 with
  | [] => none
  | ds =>
    match parseDigitsAux 0 ds with
    | none => none
    | some n =>
      let v : Int := signed.1 * n
      if -(2 ^ 31) ≤ v ∧ v ≤ 2 ^ 31 - 1 then some v else none

/-- `impl FromStr for Range` (`fix_block.rs:261-300`): pick the
separator (`"..="` when present, else `".."`), split, and match the
pieces exactly as the Rust `match` does. -/
def rangeFromStr (cs : List Char) : Except String Range :=
  let containsInc := 2 ≤ (splitOnInc cs).length
  let containsExc := 2 ≤ (splitOnExc cs).length
  if ¬containsInc ∧ ¬containsExc then
    Except.error "Malformed range expression"
  else
    let parts := if containsInc then splitOnInc cs else splitOnExc cs
    let inclusive := containsInc
    match parts with
    | [[], []] =>
      -- open upper bounds are always inclusive
      Except.ok { lower_bound := none, upper_bound := none, inclusive := true }
    | [start, []] =>
      match parseI32 start with
      | some st =>
        -- open upper bounds are always inclusive
        Except.ok { lower_bound := some st, upper_bound := none, inclusive := true }
      | none => Except.error "invalid digit found in string"
    | [[], en] =>
      match parseI32 en with
      | some e => Except.ok { lower_bound := none, upper_bound := some e, inclusive }
      | none => Except.error "invalid digit found in string"
    | [start, en] =>
      match parseI32 start, parseI32 en with
      | some st, some e =>
        if st > e then Except.error "Invalid range"
        else Except.ok { lower_bound := some st, upper_bound := some e, inclusive }
      | _, _ => Except.error "invalid digit found in string"
    | _ => Except.error "Invalid range"

/-- `Range::min_max` (`fix_block.rs:248-258`): an unset lower bound
becomes `1`, lower bound `0` is the genesis guard, negative bounds are
rejected; the upper bound gets `+1` added exactly when the range is
inclusive. -/
def Range.min_max (r : Range) : Except String (Int × Option Int) :=
  match r.lower_bound with
  | none => Except.ok (1, r.upper_bound.map (fun x => x + if r.inclusive then 1 else 0))
  | some 0 => Except.error "Genesis block can't be removed."
  | some x =>
    if x < 0 then Except.error "Negative block number"
    else Except.ok (x, r.upper_bound.map (fun x => x + if r.inclusive then 1 else 0))

/-- The `for block_number in min..=max` loop body of `by_range`
(`fix_block.rs:50-54`): `count` iterations starting at `n`; each one
resolves the height to a single hash and runs the repair pass, and both
`?` operators abort the whole loop on error. -/
def fixRangeLoop (chain_store : ChainStoreM)
    (adapter : H256 → Except String (Option ProviderBlock))
    (diffFn : Value → Value → Option Value) (render : Value → String) :
    Int → Nat → Except String (List H256)
  | _, 0 => Except.ok []
  | n, count+1 => do
    let block_hash ← resolve_block_hash_from_block_number n chain_store
    let deleted ← run block_hash chain_store adapter diffFn render
    let rest ← fixRangeLoop chain_store adapter diffFn render (n + 1) count
    Except.ok (deleted ++ rest)

/-- `by_range` (`fix_block.rs:34-56`): parse the range, compute
`(min, max)` via `min_max`, resolve an open upper bound to the chain
head, and iterate `min..=max`. -/
def by_range (chain_store : ChainStoreM)
    (adapter : H256 → Except String (Option ProviderBlock))
    (range : List Char)
    (diffFn : Value → Value → Option Value) (render : Value → String) :
    Except String (List H256) := do
  let r ← rangeFromStr range
  let (min, maxOpt) ← r.min_max
  let max ← match maxOpt with
    | none => find_chain_head chain_store
    | some x => Except.ok x
  fixRangeLoop chain_store adapter diffFn render min (max - min + 1).toNat

/-! ### `helpers::parse_block_hash` and `by_hash` -/

/-- Result of a Rust computation that can also panic (needed because
`H256::from_slice` panics on a slice whose length is not 32). -/
inductive PResult (α : Type) where
  | ok (a : α)
  | error (msg : String)
  | panicked (msg : String)
deriving DecidableEq, Repr

/-- Rust's `str::trim_start_matches("0x")`: repeatedly removes the
prefix for as long as it matches. -/
def trim0x : List Char → List Char
  | '0' :: 'x' :: rest => trim0x rest
  | cs => cs

def hexVal (c : Char) : Option Nat :=
  if '0' ≤ c ∧ c ≤ '9' then some (c.toNat - '0'.toNat)
  else if 'a' ≤ c ∧ c ≤ 'f' then some (c.toNat - 'a'.toNat + 10)
  else if 'A' ≤ c ∧ c ≤ 'F' then some (c.toNat - 'A'.toNat + 10)
  else none

/-- The `hex` crate's `hex::decode`: fails on an odd number of digits
or on any non-hexadecimal character, otherwise produces one byte per
digit pair. -/
def hexDecode : List Char → Option (List Nat)
  | [] => some []
  | [_] => none
  | c1 :: c2 :: rest =>
    match hexVal c1, hexVal c2, hexDecode rest with
    | some hi, some lo, some bs => some ((16 * hi + lo) :: bs)
    | _, _, _ => none

/-- `helpers::parse_block_hash` (`fix_block.rs:192-197`): strip the
`0x` prefix with `trim_start_matches`, `hex::decode` the rest, then
`H256::from_slice` — which panics unless exactly 32 bytes came out. -/
def parse_block_hash (cs : List Char) : PResult H256 :=
  let t := trim0x cs
  match hexDecode t with
  | none => PResult.error "Cannot parse H256 value from string"
  | some bytes =>
    if bytes.length = 32 then PResult.ok bytes
    else PResult.panicked "H256::from_slice: slice length does not match"

/-- `by_hash` (`fix_block.rs:14-22`): parse the hash, then run the
repair pass on it. -/
def by_hash (hash : List Char) (chain_store : ChainStoreM)
    (adapter : H256 → Except String (Option ProviderBlock))
    (diffFn : Value → Value → Option Value) (render : Value → String) :
    PResult (List H256) :=
  match parse_block_hash hash with
  | PResult.error e => PResult.error e
  | PResult.panicked m => PResult.panicked m
  | PResult.ok block_hash =>
    match run block_hash chain_store adapter diffFn render with
    | Except.error e => PResult.error e
    | Except.ok deleted => PResult.ok deleted

/-! ## Concrete artifacts used by the claim theorems -/

/-- Block 1 of the end-to-end scenario (parent: genesis). -/
def b1 : BlockW := ⟨test_ptr 1, some (test_ptr 0)⟩

/-- Block 2 (parent: block 1). -/
def b2 : BlockW := ⟨test_ptr 2, some (test_ptr 1)⟩

/-- Height-3 block on branch A (parent: block 2). -/
def b3A : BlockW := ⟨⟨0xA3, 3⟩, some (test_ptr 2)⟩

/-- Height-3 block on branch B, same parent as `b3A`, different hash. -/
def b3B : BlockW := ⟨⟨0xB3, 3⟩, some (test_ptr 2)⟩

/-- Chain-head sequence of the fork scenario: linear through `b3A`,
then the competing head `b3B`. -/
def blocksC1 : List BlockW := [b1, b2, b3A, b3B]

/-- A purely linear chain-head sequence. -/
def blocksLin : List BlockW := [b1, b2, ⟨test_ptr 3, some (test_ptr 2)⟩]

def h0 : H256 := List.replicate 32 0
def h5 : H256 := List.replicate 32 5
def h6 : H256 := List.replicate 32 6
def h7 : H256 := List.replicate 32 7
def hOther : H256 := List.replicate 32 9

/-- A concrete stand-in for `JsonDiff::diff`: reports a (non-null)
difference exactly for unequal values. -/
def dFnEq : Value → Value → Option Value :=
  fun a b => if a = b then none else some (Value.str "structural difference")

/-- A concrete stand-in for `json_structural_diff::colorize`. -/
def rendConst : Value → String := fun _ => "rendered structural diff"

/-- Store holding heights 5 and 6 only, each cached body `"block"`. -/
def storeEq : ChainStoreM :=
  { hashesByNumber := fun n => if n = 5 then [h5] else if n = 6 then [h6] else []
    blocksOf := fun h => if h = h5 ∨ h = h6 then [Value.str "block"] else []
    chainHead := some 6
    chain := "mainnet" }

/-- Provider agreeing with `storeEq` on every block. -/
def adapterEq : H256 → Except String (Option ProviderBlock) :=
  fun h => Except.ok (some ⟨some h, Value.str "block"⟩)

/-- Store whose only block is the genesis block at height 0. -/
def storeGen : ChainStoreM :=
  { hashesByNumber := fun n => if n = 0 then [h0] else []
    blocksOf := fun h => if h = h0 then [Value.str "cached genesis"] else []
    chainHead := some 0
    chain := "mainnet" }

/-- Provider answering with a body that differs from `storeGen`'s cache. -/
def adapterGen : H256 → Except String (Option ProviderBlock) :=
  fun h => Except.ok (some ⟨some h, Value.str "canonical genesis"⟩)

/-- The provider block `adapterGen` returns for `h0`. -/
def pbGen : ProviderBlock := ⟨some h0, Value.str "canonical genesis"⟩

/-- Store holding heights 5 and 7 but nothing at height 6; the cached
body at height 7 diverges from the provider. -/
def storeGap : ChainStoreM :=
  { hashesByNumber := fun n => if n = 5 then [h5] else if n = 7 then [h7] else []
    blocksOf := fun h =>
      if h = h5 then [Value.str "five"]
      else if h = h7 then [Value.str "seven cached"] else []
    chainHead := some 7
    chain := "mainnet" }

/-- Provider for `storeGap`: agrees at height 5, diverges at height 7. -/
def adapterGap : H256 → Except String (Option ProviderBlock) :=
  fun h =>
    Except.ok (some ⟨some h, if h = h7 then Value.str "seven canonical" else Value.str "five"⟩)

/-- Provider whose self-reported hash never matches the request. -/
def adapterWrongHash : H256 → Except String (Option ProviderBlock) :=
  fun _ => Except.ok (some ⟨some hOther, Value.str "block"⟩)

/-- `"0x0x"` followed by 64 hex digits. -/
def cexHash : List Char := '0' :: 'x' :: '0' :: 'x' :: List.replicate 64 'a'

/-! ## Helper lemmas -/

@[simp] theorem except_bind_ok {ε α β : Type} (a : α) (f : α → Except ε β) :
    (Except.ok a : Except ε α) >>= f = f a := rfl

@[simp] theorem except_bind_error {ε α β : Type} (e : ε) (f : α → Except ε β) :
    (Except.error e : Except ε α) >>= f = Except.error e := rfl

@[simp] theorem except_mapError_ok {ε ε' α : Type} (f : ε → ε') (a : α) :
    Except.mapError f (Except.ok a : Except ε α) = Except.ok a := rfl

@[simp] theorem except_mapError_error {ε ε' α : Type} (f : ε → ε') (e : ε) :
    Except.mapError f (Except.error e : Except ε α) = Except.error (f e) := rfl

/-- A parent-linked chain of candidates is consumed by emitting one
`ProcessBlock` per candidate, in order, and terminating. -/
theorem streamLoop_linear (blocks : List BlockW) :
    ∀ (rest : List BlockW) (fuel : Nat) (cur curPar : Option BlockPtr),
      isLinearChain cur rest = true → rest.length ≤ fuel →
      streamLoop blocks fuel rest cur curPar =
        (rest.map (fun b => BlockStreamEvent.processBlock b FirehoseCursor.noCursor),
         Outcome.done) := by
  intro rest
  induction rest with
  | nil =>
    intro fuel cur curPar _ _
    cases fuel <;> simp [streamLoop, advanceStep]
  | cons b bs ih =>
    intro fuel cur curPar hchain hfuel
    cases fuel with
    | zero => simp at hfuel
    | succ k =>
      simp only [isLinearChain, Bool.and_eq_true, decide_eq_true_eq] at hchain
      obtain ⟨hpar, hrest⟩ := hchain
      have hstep : advanceStep blocks (b :: bs) cur curPar =
          StepRes.emit (BlockStreamEvent.processBlock b FirehoseCursor.noCursor)
            bs (some b.ptr) b.parent := by
        simp [advanceStep, hpar]
      have ihh := ih k (some b.ptr) b.parent hrest (Nat.le_of_succ_le_succ hfuel)
      simp only [streamLoop, hstep, ihh, List.map_cons]

/-- `trim0x` is the identity on a list that does not start with `0x`. -/
theorem trim0x_eq_self (cs : List Char) (h : ∀ rest, cs ≠ '0' :: 'x' :: rest) :
    trim0x cs = cs := by
  rw [trim0x.eq_def]
  split
  · rename_i rest; exact absurd rfl (h rest)
  · rfl

/-- The result of `trim0x` never still starts with `0x`. -/
theorem trim0x_no0x (cs : List Char) : ∀ rest, trim0x cs ≠ '0' :: 'x' :: rest := by
  induction cs using trim0x.induct with
  | case1 rest ih => rw [trim0x]; exact ih
  | case2 cs h =>
    rw [trim0x_eq_self cs (fun rest hc => h rest hc)]
    intro rest hc
    exact h rest hc

/-- `trim0x` removes exactly some number of leading `0x` copies. -/
theorem trim0x_strips (cs : List Char) :
    ∃ k, cs = (List.replicate k (['0', 'x'] : List Char)).flatten ++ trim0x cs := by
  induction cs using trim0x.induct with
  | case1 rest ih =>
    obtain ⟨k, hk⟩ := ih
    refine ⟨k + 1, ?_⟩
    rw [trim0x]
    conv_lhs => rw [hk]
    simp [List.replicate_succ]
  | case2 cs h =>
    exact ⟨0, by simp [trim0x_eq_self cs (fun rest hc => h rest hc)]⟩

/-! ## Claim theorems -/

/-- C1: with blocks applied through height 3 on branch A (current
pointer `b3A.ptr`, parent `test_ptr 2`) and the next candidate `b3B`
at height 3 on branch B with parent `test_ptr 2`, the stream emits
exactly `Revert(ptr_2)` then `ProcessBlock(b3B)`; the revert step
updates `current_ptr` to `ptr_2` (with `current_parent_ptr` becoming
`ptr_1`), the process step updates it to `b3B`'s pointer. -/
theorem c1_fork_emits_revert_then_process :
    stream_events 10 blocksC1 (some 2) =
      ([BlockStreamEvent.revert (test_ptr 2) FirehoseCursor.noCursor,
        BlockStreamEvent.processBlock b3B FirehoseCursor.noCursor], Outcome.done) ∧
    advanceStep blocksC1 [b3B] (some b3A.ptr) (some (test_ptr 2)) =
      StepRes.emit (BlockStreamEvent.revert (test_ptr 2) FirehoseCursor.noCursor)
        [b3B] (some (test_ptr 2)) (some (test_ptr 1)) ∧
    advanceStep blocksC1 [b3B] (some (test_ptr 2)) (some (test_ptr 1)) =
      StepRes.emit (BlockStreamEvent.processBlock b3B FirehoseCursor.noCursor)
        [] (some b3B.ptr) (some (test_ptr 2)) := by
  refine ⟨?_, ?_, ?_⟩ <;> rfl

/-- C4: starting from `blocks[idx]`, if every remaining candidate's
parent pointer equals the previous block's pointer (the first one's
equals the starting pointer), the stream emits one `ProcessBlock` per
candidate, in order, and no `Revert` event. -/
theorem c4_linear_emits_process_in_order
    (blocks : List BlockW) (idx : Nat) (b0 : BlockW) (fuel : Nat)
    (hidx : blocks[idx]? = some b0)
    (hchain : isLinearChain (some b0.ptr) (blocks.drop (idx + 1)) = true)
    (hfuel : (blocks.drop (idx + 1)).length ≤ fuel) :
    stream_events fuel blocks (some idx) =
      ((blocks.drop (idx + 1)).map
          (fun b => BlockStreamEvent.processBlock b FirehoseCursor.noCursor),
       Outcome.done) ∧
    ∀ p c, BlockStreamEvent.revert p c ∉ (stream_events fuel blocks (some idx)).1 := by
  have h := streamLoop_linear blocks (blocks.drop (idx + 1)) fuel (some b0.ptr) b0.parent
    hchain hfuel
  have hse : stream_events fuel blocks (some idx) =
      ((blocks.drop (idx + 1)).map
        (fun b => BlockStreamEvent.processBlock b FirehoseCursor.noCursor),
       Outcome.done) := by
    simp only [stream_events, List.get?_eq_getElem?, hidx]
    exact h
  refine ⟨hse, ?_⟩
  intro p c hmem
  rw [hse] at hmem
  simp only [List.mem_map] at hmem
  obtain ⟨b, -, hb⟩ := hmem
  cases hb

/-- C4 witness: on the concrete linear chain `blocksLin` started at its
first block, the stream emits exactly `ProcessBlock(b2)` then
`ProcessBlock(block 3)`. -/
theorem c4_linear_witness :
    stream_events 10 blocksLin (some 0) =
      ([BlockStreamEvent.processBlock b2 FirehoseCursor.noCursor,
        BlockStreamEvent.processBlock ⟨test_ptr 3, some (test_ptr 2)⟩
          FirehoseCursor.noCursor], Outcome.done) :=
  (c4_linear_emits_process_in_order blocksLin 0 b1 10 (by decide) (by decide)
    (by decide)).1

/-- C5: whenever the next candidate forks off the current pointer while
`current_parent_ptr` is `None` (the genesis situation, where the revert
target would precede genesis), the loop body panics — a fatal,
detectable condition — and the stream emits no event at that step. -/
theorem c5_revert_past_genesis_is_fatal
    (blocks : List BlockW) (fuel : Nat) (b : BlockW) (rest : List BlockW)
    (cur : Option BlockPtr) (h : b.parent ≠ cur) :
    advanceStep blocks (b :: rest) cur none =
      StepRes.panicked "called Option::unwrap on a None value" ∧
    streamLoop blocks (fuel + 1) (b :: rest) cur none =
      ([], Outcome.panic "called Option::unwrap on a None value") := by
  have hstep : advanceStep blocks (b :: rest) cur none =
      StepRes.panicked "called Option::unwrap on a None value" := by
    simp [advanceStep, h]
  exact ⟨hstep, by simp [streamLoop, hstep]⟩

/-- C5 witness: the fork candidate `b3B` arriving while the stream sits
at genesis (no parent pointer) makes the stream panic without emitting
anything. -/
theorem c5_genesis_witness :
    advanceStep blocksC1 [b3B] (some (test_ptr 0)) none =
      StepRes.panicked "called Option::unwrap on a None value" ∧
    streamLoop blocksC1 3 [b3B] (some (test_ptr 0)) none =
      ([], Outcome.panic "called Option::unwrap on a None value") :=
  c5_revert_past_genesis_is_fatal blocksC1 2 b3B [] (some (test_ptr 0)) (by decide)

/-- C2: evaluating the range code at the claimed inputs. Parsing
`"5..10"` and applying `min_max` yields `(5, some 10)` — not the
claimed `max = 9` — and `"5..=10"` yields `(5, some 11)` — not the
claimed `max = 10`; since `by_range` then iterates `min..=max`, the
range `"5..=6"` over a store holding exactly heights 5 and 6 (all
consistent with the provider) does not stop after height 6 but fails
trying to resolve height 7. -/
theorem c2_range_bounds_shifted :
    rangeFromStr "5..10".data =
      Except.ok { lower_bound := some 5, upper_bound := some 10, inclusive := false } ∧
    Range.min_max { lower_bound := some 5, upper_bound := some 10, inclusive := false } =
      Except.ok (5, some 10) ∧
    rangeFromStr "5..=10".data =
      Except.ok { lower_bound := some 5, upper_bound := some 10, inclusive := true } ∧
    Range.min_max { lower_bound := some 5, upper_bound := some 10, inclusive := true } =
      Except.ok (5, some 11) ∧
    by_range storeEq adapterEq "5..=6".data dFnEq rendConst =
      Except.error ("Failed to locate block number 7 in store: " ++
        "Expected a single block hash but found none.") := by
  refine ⟨?_, ?_, ?_, ?_, ?_⟩ <;> rfl

/-- C3 counterexample: `by_number` applied to height 0 does not fail
with a validation error; it resolves the genesis hash, finds the cache
divergent from the provider, and deletes the genesis block. -/
theorem c3_by_number_deletes_genesis :
    by_number 0 storeGen adapterGen dFnEq rendConst = Except.ok [h0] := by
  rfl

/-- C3 amended: only the range entry point validates genesis —
`min_max` rejects an explicit lower bound of 0 (so `by_range "0..5"`
fails before touching any store), while `by_number 0` performs no
genesis check and can delete the genesis block. -/
theorem c3_genesis_guard_range_only
    (ub : Option Int) (inc : Bool) (chain_store : ChainStoreM)
    (adapter : H256 → Except String (Option ProviderBlock))
    (diffFn : Value → Value → Option Value) (render : Value → String) :
    Range.min_max { lower_bound := some 0, upper_bound := ub, inclusive := inc } =
      Except.error "Genesis block can't be removed." ∧
    by_range chain_store adapter "0..5".data diffFn render =
      Except.error "Genesis block can't be removed." ∧
    by_number 0 storeGen adapterGen dFnEq rendConst = Except.ok [h0] := by
  refine ⟨rfl, rfl, rfl⟩

/-- C6: given a cached block and a hash-consistent provider block, the
repair pass deletes the cached entry exactly when a divergence is
reported; the report is absent precisely when the two values are equal
or the structural diff is absent or `null`, and when the diff is a
present non-null value the rendered diff string is reported. -/
theorem c6_delete_iff_divergence
    (chain_store : ChainStoreM) (adapter : H256 → Except String (Option ProviderBlock))
    (block_hash : H256) (pb : ProviderBlock) (cached : Value)
    (diffFn : Value → Value → Option Value) (render : Value → String)
    (hcache : chain_store.blocksOf block_hash = [cached])
    (hprov : adapter block_hash = Except.ok (some pb))
    (hhash : pb.hash = some block_hash) :
    run block_hash chain_store adapter diffFn render =
      Except.ok (match diff_block_pair diffFn render cached pb.json with
        | some _ => [block_hash]
        | none => []) ∧
    (diff_block_pair diffFn render cached pb.json = none ↔
      (cached = pb.json ∨ diffFn cached pb.json = none ∨
        diffFn cached pb.json = some Value.null)) ∧
    (∀ d, cached ≠ pb.json → diffFn cached pb.json = some d → d ≠ Value.null →
      diff_block_pair diffFn render cached pb.json = some (render d)) := by
  have hc : fetch_single_cached_block block_hash chain_store = Except.ok cached := by
    simp [fetch_single_cached_block, hcache, get_single_item]
  have hp : fetch_single_provider_block adapter block_hash = Except.ok pb.json := by
    simp [fetch_single_provider_block, hprov, hhash]
  refine ⟨?_, ?_, ?_⟩
  · cases hd : diff_block_pair diffFn render cached pb.json <;>
      simp [run, hc, hp, hd]
  · unfold diff_block_pair
    by_cases heq : cached = pb.json
    · simp [heq]
    · simp only [if_neg heq]
      cases hdf : diffFn cached pb.json with
      | none => simp [heq]
      | some d => cases d <;> simp [heq]
  · intro d hne hdf hnull
    unfold diff_block_pair
    rw [if_neg hne, hdf]
    cases d <;> simp_all

/-- C6 witness: on the genesis store, whose cached body diverges from
the provider's, the repair pass deletes exactly the targeted entry. -/
theorem c6_divergence_witness :
    run h0 storeGen adapterGen dFnEq rendConst = Except.ok [h0] := by
  have h := (c6_delete_iff_divergence storeGen adapterGen h0 pbGen
    (Value.str "cached genesis") dFnEq rendConst rfl rfl rfl).1
  exact h.trans rfl

/-- C7: resolving a height to a hash returns the hash exactly when the
chain store reports a single hash for that height; zero hashes produce
the descriptive "found none" error and two or more the "multiple
occurrences" error, never an arbitrary pick. -/
theorem c7_resolve_exactly_one (chain_store : ChainStoreM) (number : Int) :
    resolve_block_hash_from_block_number number chain_store =
      (match chain_store.hashesByNumber number with
       | [] => Except.error ("Failed to locate block number " ++ toString number ++
           " in store: " ++ "Expected a single block hash but found none.")
       | [h] => Except.ok h
       | _ => Except.error ("Failed to locate block number " ++ toString number ++
           " in store: " ++ "Expected a single block hash but found multiple occurrences.")) := by
  rcases hl : chain_store.hashesByNumber number with _ | ⟨a, _ | ⟨b, t⟩⟩ <;>
    simp [resolve_block_hash_from_block_number, get_single_item, hl]

/-- C8: when the provider's block self-reports a hash different from
the requested one, fetching fails with the integrity error, and the
repair pass can never reach a successful (diff/delete) outcome. -/
theorem c8_provider_hash_mismatch_rejected
    (chain_store : ChainStoreM) (adapter : H256 → Except String (Option ProviderBlock))
    (block_hash : H256) (pb : ProviderBlock)
    (diffFn : Value → Value → Option Value) (render : Value → String)
    (hprov : adapter block_hash = Except.ok (some pb))
    (hmismatch : pb.hash ≠ some block_hash) :
    fetch_single_provider_block adapter block_hash =
      Except.error "Provider responded with a different block hash" ∧
    ∀ deleted, run block_hash chain_store adapter diffFn render ≠ Except.ok deleted := by
  have hp : fetch_single_provider_block adapter block_hash =
      Except.error "Provider responded with a different block hash" := by
    simp [fetch_single_provider_block, hprov, hmismatch]
  refine ⟨hp, ?_⟩
  intro deleted hcontra
  cases hc : fetch_single_cached_block block_hash chain_store with
  | error e => simp [run, hc] at hcontra
  | ok cached => simp [run, hc, hp] at hcontra

/-- C8 witness: a provider always answering with a foreign hash makes
the fetch fail with the integrity error and the repair pass never
succeed. -/
theorem c8_mismatch_witness :
    fetch_single_provider_block adapterWrongHash h0 =
      Except.error "Provider responded with a different block hash" ∧
    run h0 storeGen adapterWrongHash dFnEq rendConst ≠ Except.ok [] := by
  have h := c8_provider_hash_mismatch_rejected storeGen adapterWrongHash h0
    ⟨some hOther, Value.str "block"⟩ dFnEq rendConst rfl (by decide)
  exact ⟨h.1, h.2 []⟩

/-- C9 counterexample: over a store holding heights 5 and 7 (but not 6),
`by_range "5..7"` aborts with the height-6 resolution error instead of
continuing, even though height 7 is present and divergent — the single
repair pass at height 7 would have deleted its cached block. -/
theorem c9_range_error_does_not_continue :
    by_range storeGap adapterGap "5..7".data dFnEq rendConst =
      Except.error ("Failed to locate block number 6 in store: " ++
        "Expected a single block hash but found none.") ∧
    run h7 storeGap adapterGap dFnEq rendConst = Except.ok [h7] :=
  ⟨rfl, rfl⟩

/-- C9 amended: a validation error at one height aborts the whole
operation in range mode (the error propagates out of the loop at the
height that failed) exactly as it does in single-block mode. -/
theorem c9_validation_error_aborts
    (chain_store : ChainStoreM) (adapter : H256 → Except String (Option ProviderBlock))
    (diffFn : Value → Value → Option Value) (render : Value → String)
    (n : Int) (count : Nat) (e : String)
    (herr : resolve_block_hash_from_block_number n chain_store = Except.error e) :
    fixRangeLoop chain_store adapter diffFn render n (count + 1) = Except.error e ∧
    by_number n chain_store adapter diffFn render = Except.error e := by
  constructor
  · simp [fixRangeLoop, herr]
  · simp [by_number, herr]

/-- C9 witness: at the missing height 6 of `storeGap`, both the range
loop and single-block mode abort with the same resolution error. -/
theorem c9_abort_witness :
    fixRangeLoop storeGap adapterGap dFnEq rendConst 6 4 =
      Except.error ("Failed to locate block number 6 in store: " ++
        "Expected a single block hash but found none.") ∧
    by_number 6 storeGap adapterGap dFnEq rendConst =
      Except.error ("Failed to locate block number 6 in store: " ++
        "Expected a single block hash but found none.") :=
  c9_validation_error_aborts storeGap adapterGap dFnEq rendConst 6 3 _ (by rfl)

/-- C10 counterexample: on `"0x0x"` followed by 64 hex digits, parsing
succeeds — `trim_start_matches` removed both `0x` prefixes — although
after stripping only one prefix the remainder still contains the
non-hexadecimal character `x` and would have to be rejected if at most
one prefix were stripped. -/
theorem c10_strips_more_than_one_prefix :
    parse_block_hash cexHash = PResult.ok (List.replicate 32 170) ∧
    hexDecode (cexHash.drop 2) = none :=
  ⟨rfl, rfl⟩

/-- C10 amended: parsing strips every leading `0x` repetition (the
result of `trim0x` never starts with another one), errors exactly when
the remainder fails hex decoding, returns the hash exactly when the
remainder decodes to 32 bytes, and panics (`H256::from_slice`) exactly
when it decodes to any other length. -/
theorem c10_parse_block_hash_spec (cs : List Char) :
    (∃ k, cs = (List.replicate k (['0', 'x'] : List Char)).flatten ++ trim0x cs) ∧
    (∀ rest, trim0x cs ≠ '0' :: 'x' :: rest) ∧
    (parse_block_hash cs = PResult.error "Cannot parse H256 value from string" ↔
      hexDecode (trim0x cs) = none) ∧
    (∀ bytes, parse_block_hash cs = PResult.ok bytes ↔
      (hexDecode (trim0x cs) = some bytes ∧ bytes.length = 32)) ∧
    (parse_block_hash cs = PResult.panicked "H256::from_slice: slice length does not match" ↔
      ∃ bytes, hexDecode (trim0x cs) = some bytes ∧ bytes.length ≠ 32) := by
  refine ⟨trim0x_strips cs, trim0x_no0x cs, ?_, ?_, ?_⟩
  · cases hd : hexDecode (trim0x cs) with
    | none => simp [parse_block_hash, hd]
    | some bs =>
      by_cases hl : bs.length = 32 <;> simp [parse_block_hash, hd, hl]
  · intro bytes
    cases hd : hexDecode (trim0x cs) with
    | none => simp [parse_block_hash, hd]
    | some bs =>
      by_cases hl : bs.length = 32 <;> simp [parse_block_hash, hd, hl] <;> aesop
  · cases hd : hexDecode (trim0x cs) with
    | none => simp [parse_block_hash, hd]
    | some bs =>
      by_cases hl : bs.length = 32 <;> simp [parse_block_hash, hd, hl]

/-- C10 amended, instantiated: `"0xzz"` strips to `"zz"`, which fails
hex decoding, so parsing reports the parse error. -/
theorem c10_parse_error_witness :
    parse_block_hash "0xzz".data = PResult.error "Cannot parse H256 value from string" :=
  ((c10_parse_block_hash_spec "0xzz".data).2.2.1).mpr rfl

end GraphNode
